import Mathlib

/-!
Shallow embedding of the `gh-copilot-slides` repository (slide_mcp package)
used to check the natural-language specification against the code.

Python dicts are modelled as association lists or as structures whose
fields mirror the keys the code touches; `dict.get` of an absent key is
`Option.none`; Python truthiness of a string/list/dict is non-emptiness.
-/

/-- Card inside a `feature_grid` slide: the code in
`slide_mcp/utils.py` only touches the `title` and `description` keys
(key presence, not truthiness); any further keys are untouched and kept in
`extra`. -/
structure Card where
  title : Option String := none
  description : Option String := none
  extra : List (String × String) := []
deriving DecidableEq, Repr

/-- Slide dict: the fields `validate_slides` reads or writes
(`type`, `title`, `bullets`, `cards`), plus `extra` for every other key,
which the validation code never touches. -/
structure Slide where
  type : Option String := none
  title : Option String := none
  bullets : Option (List String) := none
  cards : Option (List Card) := none
  extra : List (String × String) := []
deriving DecidableEq, Repr

/-- VALID_SLIDE_TYPES from `slide_mcp/utils.py`. -/
def VALID_SLIDE_TYPES : List String :=
  ["title", "content", "feature_grid", "code", "quote", "image", "closing"]

/-- Membership test `slide.get("type") in VALID_SLIDE_TYPES` (a missing
key is `None`, which is not in the set). -/
def isValidType : Option String → Bool
  | some t => VALID_SLIDE_TYPES.contains t
  | none => false

/-- Python truthiness of `slide.get("title")`: present and non-empty. -/
def titleTruthy : Option String → Bool
  | some t => t ≠ ""
  | none => false

/-- The `if slide.get("bullets"): slide["bullets"] = slide["bullets"][:6]`
step: only a present, non-empty list is truncated. -/
def fixBullets : Option (List String) → Option (List String)
  | none => none
  | some b => if b.isEmpty then some b else some (b.take 6)

/-- Per-card repair inside the cards loop: a missing `title` or
`description` key is filled with the empty string. -/
def fixCard (c : Card) : Card :=
  { c with title := some (c.title.getD ""), description := some (c.description.getD "") }

/-- The cards step: a present, non-empty list is truncated to 6 and each
retained card repaired. -/
def fixCards : Option (List Card) → Option (List Card)
  | none => none
  | some cs => if cs.isEmpty then some cs else some ((cs.take 6).map fixCard)

/-- Body of the per-slide loop of `validate_slides`
(`slide_mcp/utils.py` lines 39-59). -/
def fixSlide (s : Slide) : Slide :=
  { s with
    type := if isValidType s.type then s.type else some "content"
    title := if titleTruthy s.title then s.title else some "Untitled Slide"
    bullets := fixBullets s.bullets
    cards := fixCards s.cards }

/-- Post-pass `if slides[0].get("type") != "title": slides[0]["type"] = "title"`. -/
def forceFirstTitle : List Slide → List Slide
  | [] => []
  | s :: rest =>
      (if s.type ≠ some "title" then { s with type := some "title" } else s) :: rest

/-- Post-pass `if slides[-1].get("type") != "closing": slides[-1]["type"] = "closing"`. -/
def forceLastClosing : List Slide → List Slide
  | [] => []
  | [s] => [if s.type ≠ some "closing" then { s with type := some "closing" } else s]
  | s :: t :: rest => s :: forceLastClosing (t :: rest)

/-- Model of `validate_slides` (`slide_mcp/utils.py` lines 23-69): empty
input passes through; otherwise the per-slide loop runs, then the first
slide is forced to type `title`, then the last slide to type `closing`. -/
def validate_slides (slides : List Slide) : List Slide :=
  match slides with
  | [] => []
  | _ :: _ => forceLastClosing (forceFirstTitle (slides.map fixSlide))

example : validate_slides [{ type := some "x", title := none }] =
    [{ type := some "closing", title := some "Untitled Slide" }] := by decide

example :
    validate_slides [{ type := some "content" }, { type := some "quote", title := some "q" }] =
      [{ type := some "title", title := some "Untitled Slide" },
       { type := some "closing", title := some "q" }] := by decide

/-! Structural lemmas about the validation passes. -/

theorem isValidType_content : isValidType (some "content") = true := by decide

theorem isValidType_title_str : isValidType (some "title") = true := by decide

theorem isValidType_closing_str : isValidType (some "closing") = true := by decide

theorem titleTruthy_untitled : titleTruthy (some "Untitled Slide") = true := by decide

theorem fixCard_idem (c : Card) : fixCard (fixCard c) = fixCard c := by
  simp [fixCard]

theorem fixBullets_idem (b : Option (List String)) :
    fixBullets (fixBullets b) = fixBullets b := by
  match b with
  | none => rfl
  | some [] => rfl
  | some (a :: l) => simp [fixBullets, List.take_take]

theorem fixCards_idem (cs : Option (List Card)) :
    fixCards (fixCards cs) = fixCards cs := by
  match cs with
  | none => rfl
  | some [] => rfl
  | some (c :: l) =>
      simp [fixCards, List.take_take, ← List.map_take, List.map_map, Function.comp,
        fixCard_idem]

theorem fixSlide_idem (s : Slide) : fixSlide (fixSlide s) = fixSlide s := by
  simp only [fixSlide]
  by_cases ht : isValidType s.type <;> by_cases hti : titleTruthy s.title <;>
    simp [ht, hti, isValidType_content, titleTruthy_untitled, fixBullets_idem, fixCards_idem]

theorem fixSlide_setType (s : Slide) (t : String) (h : isValidType (some t) = true) :
    fixSlide { s with type := some t } = { fixSlide s with type := some t } := by
  simp [fixSlide, h]

theorem map_fixSlide_forceFirstTitle (l : List Slide) (h : l.map fixSlide = l) :
    (forceFirstTitle l).map fixSlide = forceFirstTitle l := by
  match l with
  | [] => rfl
  | x :: r =>
    rw [List.map_cons, List.cons.injEq] at h
    obtain ⟨hx, hr⟩ := h
    by_cases hxt : x.type = some "title"
    · simp [forceFirstTitle, hxt, hx, hr]
    · simp only [forceFirstTitle, ne_eq, hxt, not_false_eq_true, if_true, ite_true,
        List.map_cons, hr]
      rw [fixSlide_setType x "title" isValidType_title_str, hx]

theorem map_fixSlide_forceLastClosing : ∀ l : List Slide, l.map fixSlide = l →
    (forceLastClosing l).map fixSlide = forceLastClosing l
  | [], _ => rfl
  | [x], h => by
      rw [List.map_cons, List.map_nil, List.cons.injEq] at h
      obtain ⟨hx, -⟩ := h
      by_cases hxt : x.type = some "closing"
      · simp [forceLastClosing, hxt, hx]
      · simp only [forceLastClosing, ne_eq, hxt, not_false_eq_true, if_true, ite_true,
          List.map_cons, List.map_nil]
        rw [fixSlide_setType x "closing" isValidType_closing_str, hx]
  | x :: y :: r, h => by
      rw [List.map_cons, List.cons.injEq] at h
      obtain ⟨hx, hr⟩ := h
      show (x :: forceLastClosing (y :: r)).map fixSlide = x :: forceLastClosing (y :: r)
      rw [List.map_cons, hx, map_fixSlide_forceLastClosing (y :: r) hr]

theorem forceFirstTitle_head_type (x : Slide) (r : List Slide) :
    ∃ g, forceFirstTitle (x :: r) = g :: r ∧ g.type = some "title" := by
  by_cases hxt : x.type = some "title"
  · exact ⟨x, by simp [forceFirstTitle, hxt], hxt⟩
  · exact ⟨{ x with type := some "title" }, by simp [forceFirstTitle, hxt], rfl⟩

theorem forceLastClosing_cons_cons (x y : Slide) (r : List Slide) :
    forceLastClosing (x :: y :: r) = x :: forceLastClosing (y :: r) := rfl

theorem forceLastClosing_getLast_type : ∀ l : List Slide, l ≠ [] →
    ∃ s, (forceLastClosing l).getLast? = some s ∧ s.type = some "closing"
  | [], h => absurd rfl h
  | [x], _ => by
      by_cases hxt : x.type = some "closing"
      · exact ⟨x, by simp [forceLastClosing, hxt], hxt⟩
      · exact ⟨{ x with type := some "closing" }, by simp [forceLastClosing, hxt], rfl⟩
  | x :: y :: r, _ => by
      obtain ⟨s, hs, hst⟩ := forceLastClosing_getLast_type (y :: r) (by simp)
      obtain ⟨a, t, hL⟩ : ∃ a t, forceLastClosing (y :: r) = a :: t := by
        cases r with
        | nil => exact ⟨_, _, rfl⟩
        | cons z r0 => exact ⟨_, _, rfl⟩
      refine ⟨s, ?_, hst⟩
      rw [forceLastClosing_cons_cons, hL, List.getLast?_cons_cons, ← hL, hs]

theorem length_forceFirstTitle (l : List Slide) : (forceFirstTitle l).length = l.length := by
  cases l <;> simp [forceFirstTitle]

theorem length_forceLastClosing : ∀ l : List Slide, (forceLastClosing l).length = l.length
  | [] => rfl
  | [_] => rfl
  | x :: y :: r => by
      rw [forceLastClosing_cons_cons, List.length_cons, List.length_cons,
        length_forceLastClosing (y :: r)]

theorem length_validate_slides (S : List Slide) : (validate_slides S).length = S.length := by
  cases S with
  | nil => rfl
  | cons x r =>
      show (forceLastClosing (forceFirstTitle ((x :: r).map fixSlide))).length = _
      rw [length_forceLastClosing, length_forceFirstTitle, List.length_map]

theorem forceLastClosing_eq_self : ∀ l : List Slide,
    (∃ s, l.getLast? = some s ∧ s.type = some "closing") → forceLastClosing l = l
  | [], _ => rfl
  | [x], h => by
      obtain ⟨s, hs, hst⟩ := h
      simp only [List.getLast?_singleton, Option.some.injEq] at hs
      subst hs
      simp [forceLastClosing, hst]
  | x :: y :: r, h => by
      obtain ⟨s, hs, hst⟩ := h
      rw [List.getLast?_cons_cons] at hs
      rw [forceLastClosing_cons_cons, forceLastClosing_eq_self (y :: r) ⟨s, hs, hst⟩]

theorem validate_eq_self : ∀ l : List Slide,
    l.map fixSlide = l →
    (∃ s, l.getLast? = some s ∧ s.type = some "closing") →
    (∀ x y r, l = x :: y :: r → x.type = some "title") →
    validate_slides l = l
  | [], _, _, _ => rfl
  | [x], hfix, hlast, _ => by
      obtain ⟨s, hs, hst⟩ := hlast
      simp only [List.getLast?_singleton, Option.some.injEq] at hs
      subst hs
      rw [List.map_cons, List.map_nil, List.cons.injEq] at hfix
      obtain ⟨hx, -⟩ := hfix
      show forceLastClosing (forceFirstTitle [fixSlide x]) = [x]
      rw [hx]
      have h1 : forceFirstTitle [x] = [{ x with type := some "title" }] := by
        have : x.type ≠ some "title" := by rw [hst]; decide
        simp [forceFirstTitle, this]
      rw [h1]
      have h2 : forceLastClosing [{ x with type := some "title" }] =
          [{ x with type := some "closing" }] := by
        simp [forceLastClosing]
      rw [h2]
      have h3 : { x with type := some "closing" } = x := by
        cases x with
        | mk t ti b c e =>
            simp only [Slide.mk.injEq, and_true, true_and]
            exact hst.symm
      rw [h3]
  | x :: y :: r, hfix, hlast, hhead => by
      have hx := hhead x y r rfl
      show forceLastClosing (forceFirstTitle ((x :: y :: r).map fixSlide)) = _
      rw [hfix]
      have h1 : forceFirstTitle (x :: y :: r) = x :: y :: r := by
        simp [forceFirstTitle, hx]
      rw [h1]
      exact forceLastClosing_eq_self _ hlast

/-- C3: `validate_slides` is idempotent — for every slide list `S`,
`validate_slides (validate_slides S) = validate_slides S`. -/
theorem validate_slides_idempotent (S : List Slide) :
    validate_slides (validate_slides S) = validate_slides S := by
  cases S with
  | nil => rfl
  | cons x r =>
    apply validate_eq_self
    · apply map_fixSlide_forceLastClosing
      apply map_fixSlide_forceFirstTitle
      rw [List.map_map]
      simp [Function.comp, fixSlide_idem]
    · apply forceLastClosing_getLast_type
      rw [List.map_cons]
      obtain ⟨g, hg, -⟩ := forceFirstTitle_head_type (fixSlide x) (r.map fixSlide)
      rw [hg]
      exact List.cons_ne_nil _ _
    · intro a b t habt
      cases r with
      | nil =>
        have hlen := congrArg List.length habt
        rw [length_validate_slides] at hlen
        simp at hlen
      | cons y r0 =>
        obtain ⟨g, hg, hgt⟩ := forceFirstTitle_head_type (fixSlide x) (fixSlide y :: r0.map fixSlide)
        have hv : validate_slides (x :: y :: r0) =
            g :: forceLastClosing (fixSlide y :: r0.map fixSlide) := by
          show forceLastClosing (forceFirstTitle ((x :: y :: r0).map fixSlide)) = _
          rw [List.map_cons, List.map_cons, hg, forceLastClosing_cons_cons]
        rw [hv, List.cons.injEq] at habt
        rw [← habt.1]
        exact hgt

/-- C2: for every non-empty slide list, after `validate_slides` the last
slide's type is "closing"; when at least two slides exist the first
slide's type is "title"; and for a single-slide list the two rules
collide and the surviving type is "closing" (last-slide rule applied
after, and overriding, the first-slide rule). -/
theorem validate_slides_first_title_last_closing (S : List Slide) (h : S ≠ []) :
    (∃ s, (validate_slides S).getLast? = some s ∧ s.type = some "closing") ∧
    (2 ≤ S.length → ∃ s, (validate_slides S).head? = some s ∧ s.type = some "title") ∧
    (S.length = 1 → ∃ s, validate_slides S = [s] ∧ s.type = some "closing") := by
  match S with
  | [] => exact absurd rfl h
  | [x] =>
    obtain ⟨g, hg, hgt⟩ := forceFirstTitle_head_type (fixSlide x) []
    have hv : validate_slides [x] = [{ g with type := some "closing" }] := by
      show forceLastClosing (forceFirstTitle [fixSlide x]) = _
      rw [hg]
      have : g.type ≠ some "closing" := by rw [hgt]; decide
      simp [forceLastClosing, this]
    refine ⟨⟨{ g with type := some "closing" }, by rw [hv]; rfl, rfl⟩, ?_, ?_⟩
    · intro h2; simp at h2
    · intro _; exact ⟨{ g with type := some "closing" }, hv, rfl⟩
  | x :: y :: r =>
    obtain ⟨g, hg, hgt⟩ := forceFirstTitle_head_type (fixSlide x) (fixSlide y :: r.map fixSlide)
    have hv : validate_slides (x :: y :: r) =
        g :: forceLastClosing (fixSlide y :: r.map fixSlide) := by
      show forceLastClosing (forceFirstTitle ((x :: y :: r).map fixSlide)) = _
      rw [List.map_cons, List.map_cons, hg, forceLastClosing_cons_cons]
    refine ⟨?_, ?_, ?_⟩
    · have hne : forceFirstTitle ((x :: y :: r).map fixSlide) ≠ [] := by
        rw [List.map_cons, List.map_cons, hg]
        exact List.cons_ne_nil _ _
      exact forceLastClosing_getLast_type _ hne
    · intro _
      exact ⟨g, by rw [hv]; rfl, hgt⟩
    · intro h1; simp at h1

/-- Witness for C2 at a concrete two-slide deck. -/
theorem validate_slides_first_title_last_closing_witness :
    (∃ s, (validate_slides [{ type := some "quote", title := some "a" },
        { type := some "content", title := some "b" }]).getLast? = some s ∧
        s.type = some "closing") ∧
    (2 ≤ ([{ type := some "quote", title := some "a" },
        { type := some "content", title := some "b" }] : List Slide).length →
      ∃ s, (validate_slides [{ type := some "quote", title := some "a" },
        { type := some "content", title := some "b" }]).head? = some s ∧
        s.type = some "title") ∧
    (([{ type := some "quote", title := some "a" },
        { type := some "content", title := some "b" }] : List Slide).length = 1 →
      ∃ s, validate_slides [{ type := some "quote", title := some "a" },
        { type := some "content", title := some "b" }] = [s] ∧ s.type = some "closing") :=
  validate_slides_first_title_last_closing _ (by decide)

/-- Projection of a slide onto the fields the post-pass never touches. -/
def slideContent (s : Slide) : Option (List String) × Option (List Card) :=
  (s.bullets, s.cards)

theorem slideContent_forceFirstTitle (l : List Slide) :
    (forceFirstTitle l).map slideContent = l.map slideContent := by
  cases l with
  | nil => rfl
  | cons x r =>
      by_cases hxt : x.type = some "title" <;> simp [forceFirstTitle, hxt, slideContent]

theorem slideContent_forceLastClosing : ∀ l : List Slide,
    (forceLastClosing l).map slideContent = l.map slideContent
  | [] => rfl
  | [x] => by
      by_cases hxt : x.type = some "closing" <;> simp [forceLastClosing, hxt, slideContent]
  | x :: y :: r => by
      rw [forceLastClosing_cons_cons, List.map_cons, List.map_cons,
        slideContent_forceLastClosing (y :: r)]

/-- C4: for every slide in the input whose `bullets` list has length `n`,
the corresponding output slide of `validate_slides` has a bullets list of
length `min n 6`; the same bound holds for `cards`, and every retained
card carries both a `title` and a `description` key (filled with the
empty string when missing). -/
theorem validate_slides_bullets_cards_bound (S : List Slide) (i : Nat) (s : Slide)
    (h : S[i]? = some s) :
    ∃ s', (validate_slides S)[i]? = some s' ∧
      (∀ b, s.bullets = some b → ∃ b', s'.bullets = some b' ∧ b'.length = min b.length 6) ∧
      (∀ cs, s.cards = some cs → ∃ cs', s'.cards = some cs' ∧ cs'.length = min cs.length 6 ∧
        ∀ c ∈ cs', c.title.isSome ∧ c.description.isSome) := by
  match S with
  | [] => rw [List.getElem?_nil] at h; exact absurd h (by simp)
  | x :: r =>
    have hcontent : (validate_slides (x :: r)).map slideContent =
        ((x :: r).map fixSlide).map slideContent := by
      show (forceLastClosing (forceFirstTitle _)).map slideContent = _
      rw [slideContent_forceLastClosing, slideContent_forceFirstTitle]
    have h1 : ((validate_slides (x :: r))[i]?).map slideContent =
        some (slideContent (fixSlide s)) := by
      have h2 := congrArg (fun l => l[i]?) hcontent
      simp only [List.getElem?_map] at h2
      rw [h2, h]
      rfl
    obtain ⟨s', hs', hcs⟩ : ∃ s', (validate_slides (x :: r))[i]? = some s' ∧
        slideContent s' = slideContent (fixSlide s) := by
      match hv : (validate_slides (x :: r))[i]? with
      | none => rw [hv] at h1; exact absurd h1 (by simp)
      | some s' =>
          rw [hv] at h1
          exact ⟨s', rfl, by injection h1⟩
    have hbul : s'.bullets = fixBullets s.bullets := congrArg Prod.fst hcs
    have hcar : s'.cards = fixCards s.cards := congrArg Prod.snd hcs
    refine ⟨s', hs', ?_, ?_⟩
    · intro b hb
      rw [hb] at hbul
      match b, hbul with
      | [], hbul => exact ⟨[], by simpa [fixBullets] using hbul, by simp⟩
      | a :: b0, hbul =>
          refine ⟨(a :: b0).take 6, by simpa [fixBullets] using hbul, ?_⟩
          rw [List.length_take, Nat.min_comm]
    · intro cs hc
      rw [hc] at hcar
      match cs, hcar with
      | [], hcar => exact ⟨[], by simpa [fixCards] using hcar, by simp, by simp⟩
      | c0 :: cs0, hcar =>
          refine ⟨((c0 :: cs0).take 6).map fixCard, by simpa [fixCards] using hcar, ?_, ?_⟩
          · rw [List.length_map, List.length_take, Nat.min_comm]
          · intro c hcmem
            obtain ⟨c1, -, rfl⟩ := List.mem_map.mp hcmem
            simp [fixCard]

/-- Concrete slide used by the C4 witness: 8 bullets and 2 cards with
missing keys. -/
def c4Slide : Slide :=
  { type := some "content", title := some "c",
    bullets := some ["1", "2", "3", "4", "5", "6", "7", "8"],
    cards := some [{ title := some "x" }, {}] }

/-- Concrete deck used by the C4 witness. -/
def c4Deck : List Slide :=
  [{ type := some "title", title := some "t" }, c4Slide]

/-- Witness for C4 at the concrete deck. -/
theorem validate_slides_bullets_cards_bound_witness :
    ∃ s', (validate_slides c4Deck)[1]? = some s' ∧
      (∀ b, c4Slide.bullets = some b →
        ∃ b', s'.bullets = some b' ∧ b'.length = min b.length 6) ∧
      (∀ cs, c4Slide.cards = some cs →
        ∃ cs', s'.cards = some cs' ∧ cs'.length = min cs.length 6 ∧
          ∀ c ∈ cs', c.title.isSome ∧ c.description.isSome) :=
  validate_slides_bullets_cards_bound c4Deck 1 c4Slide (by decide)

/-! Association-list model of Python string-keyed dicts. -/

/-- First-match lookup, `dict.get(k)`. -/
def lookupA {α : Type} : List (String × α) → String → Option α
  | [], _ => none
  | (k0, v) :: rest, k => if k0 = k then some v else lookupA rest k

/-- Assignment `m[k] = v`: replace in place if the key exists, else append
(Python dicts keep insertion order). -/
def insertA {α : Type} (m : List (String × α)) (k : String) (v : α) : List (String × α) :=
  if m.any (fun p => p.1 = k) then m.map (fun p => if p.1 = k then (k, v) else p)
  else m ++ [(k, v)]

/-- The `dict.update(other)` operation: every binding of `other` is
assigned into `m` in order. -/
def updateA {α : Type} (m other : List (String × α)) : List (String × α) :=
  other.foldl (fun acc p => insertA acc p.1 p.2) m

/-- File deletion `path.unlink()` in the store model. -/
def removeA {α : Type} (m : List (String × α)) (k : String) : List (String × α) :=
  m.filter (fun p => p.1 ≠ k)

/-! Session data model from `slide_mcp/session.py`. -/

/-- Entry of `edit_history` as appended by `PresentationSession.add_edit`. -/
structure EditEntry where
  instruction : String
  summary : String
  timestamp : String
deriving DecidableEq, Repr

/-- Research bundle dict: the pipeline treats it opaquely apart from
emptiness and string-valued key lookups, so a string association list is
enough structure for every claim. -/
abbrev ResearchData := List (String × String)

/-- Custom style preset dict (colors, fonts), treated opaquely. -/
abbrev Preset := List (String × String)

/-- PresentationSession dataclass (`slide_mcp/session.py` lines 27-58),
fields in declaration order with their dataclass defaults. -/
structure Session where
  id : String := ""
  topic : String := ""
  purpose : String := "presentation"
  research_data : ResearchData := []
  slides : List Slide := []
  presentation_title : String := ""
  style_name : String := ""
  custom_preset : Option Preset := none
  output_paths : List (String × String) := []
  edit_history : List EditEntry := []
  created_at : String := ""
  updated_at : String := ""
  urls : List String := []
  files : List String := []
  mood : String := ""
  audience : String := ""
  slide_count : Nat := 10
  output_formats : List String := ["html"]
deriving DecidableEq, Repr

/-- The `__post_init__` hook: a falsy (empty) `id`, `created_at` or
`updated_at` is replaced by a fresh uuid hex / `datetime.now()` value;
the nondeterministic fresh values are explicit parameters. -/
def postInit (genId now1 now2 : String) (s : Session) : Session :=
  { s with
    id := if s.id = "" then genId else s.id
    created_at := if s.created_at = "" then now1 else s.created_at
    updated_at := if s.updated_at = "" then now2 else s.updated_at }

/-- A session JSON dict restricted to the 18 known dataclass fields;
`none` is an absent key. Unknown extra keys are ignored by `from_dict`
and therefore not represented. -/
structure SessionData where
  id : Option String := none
  topic : Option String := none
  purpose : Option String := none
  research_data : Option ResearchData := none
  slides : Option (List Slide) := none
  presentation_title : Option String := none
  style_name : Option String := none
  custom_preset : Option (Option Preset) := none
  output_paths : Option (List (String × String)) := none
  edit_history : Option (List EditEntry) := none
  created_at : Option String := none
  updated_at : Option String := none
  urls : Option (List String) := none
  files : Option (List String) := none
  mood : Option String := none
  audience : Option String := none
  slide_count : Option Nat := none
  output_formats : Option (List String) := none
deriving DecidableEq, Repr

/-- `PresentationSession.to_dict` (`session.py` lines 60-82): every field
is written out. -/
def sessionToDict (s : Session) : SessionData :=
  { id := some s.id
    topic := some s.topic
    purpose := some s.purpose
    research_data := some s.research_data
    slides := some s.slides
    presentation_title := some s.presentation_title
    style_name := some s.style_name
    custom_preset := some s.custom_preset
    output_paths := some s.output_paths
    edit_history := some s.edit_history
    created_at := some s.created_at
    updated_at := some s.updated_at
    urls := some s.urls
    files := some s.files
    mood := some s.mood
    audience := some s.audience
    slide_count := some s.slide_count
    output_formats := some s.output_formats }

/-- `PresentationSession.from_dict` (`session.py` lines 84-92): construct
a default session (running `__post_init__` with fresh id/timestamps) and
overwrite every known field present in the dict. -/
def sessionFromDict (genId now1 now2 : String) (d : SessionData) : Session :=
  let s0 := postInit genId now1 now2 {}
  { id := d.id.getD s0.id
    topic := d.topic.getD s0.topic
    purpose := d.purpose.getD s0.purpose
    research_data := d.research_data.getD s0.research_data
    slides := d.slides.getD s0.slides
    presentation_title := d.presentation_title.getD s0.presentation_title
    style_name := d.style_name.getD s0.style_name
    custom_preset := d.custom_preset.getD s0.custom_preset
    output_paths := d.output_paths.getD s0.output_paths
    edit_history := d.edit_history.getD s0.edit_history
    created_at := d.created_at.getD s0.created_at
    updated_at := d.updated_at.getD s0.updated_at
    urls := d.urls.getD s0.urls
    files := d.files.getD s0.files
    mood := d.mood.getD s0.mood
    audience := d.audience.getD s0.audience
    slide_count := d.slide_count.getD s0.slide_count
    output_formats := d.output_formats.getD s0.output_formats }

/-- `PresentationSession.add_edit` (`session.py` lines 94-101): append to
the history and refresh `updated_at`; `nowEdit` stands for the two
`datetime.now()` calls. -/
def addEdit (nowEdit : String) (s : Session) (instruction summary : String) : Session :=
  { s with
    edit_history := s.edit_history ++ [⟨instruction, summary, nowEdit⟩]
    updated_at := nowEdit }

/-- C5: session serialization round-trips losslessly; in particular the
deserialized session keeps the dict's `created_at`/`updated_at` values
for every choice of fresh uuid/timestamps the constructor would draw. -/
theorem session_roundtrip (genId now1 now2 : String) (s : Session) :
    sessionFromDict genId now1 now2 (sessionToDict s) = s ∧
    (sessionFromDict genId now1 now2 (sessionToDict s)).created_at = s.created_at ∧
    (sessionFromDict genId now1 now2 (sessionToDict s)).updated_at = s.updated_at :=
  ⟨rfl, rfl, rfl⟩

/-! SessionManager from `slide_mcp/session.py`. -/

/-- Errors raised by the store and the orchestrator: `ValueError` from
`_session_path`, `FileNotFoundError` from `load`, and `RuntimeError`
raised by the orchestrator phases. -/
inductive PipelineErr where
  | invalidId (id : String)
  | notFound (id : String)
  | runtime (msg : String)
deriving DecidableEq, Repr

/-- A `[a-f0-9]` character of the `_SESSION_ID_RE` class. -/
def hexLowerChar (c : Char) : Bool :=
  ('a' ≤ c && c ≤ 'f') || ('0' ≤ c && c ≤ '9')

/-- A run accepted by `[a-f0-9]{1,32}`. -/
def hexRun1to32 (l : List Char) : Bool :=
  1 ≤ l.length && l.length ≤ 32 && l.all hexLowerChar

/-- Modelled from the spec: its identifier-safety wording "a fixed
low-cardinality charset (lowercase hex, bounded length)" — the set of
strings of 1 to 32 lowercase hex characters, to be compared with the
code's actual regex acceptance below. -/
def isLowercaseHexString (s : String) : Bool := hexRun1to32 s.data

/-- Truthiness of `_SESSION_ID_RE.match(session_id)` for the compiled
pattern `^[a-f0-9]{1,32}$` (`session.py` line 24). Without
`re.MULTILINE`, Python's `$` matches at the end of the string or just
before a newline at the end of the string, so the match also accepts 1
to 32 lowercase hex characters followed by one trailing `"\n"`. -/
def validSessionId (s : String) : Bool :=
  hexRun1to32 s.data ||
    (match s.data.getLast? with
     | some c => c = '\n' && hexRun1to32 s.data.dropLast
     | none => false)

/-- The per-session file name `f"{session_id}.json"` built by
`_session_path`. -/
def sessionFileName (id : String) : String := id ++ ".json"

/-- Filesystem state of the sessions directory: file name to stored JSON
document (a serialized session dict). -/
abbrev FS := List (String × SessionData)

/-- `SessionManager.load` (`session.py` lines 132-138): validate the id
(`_session_path` raises `ValueError` before any filesystem access), then
check existence, then read and deserialize. The fresh values consumed by
`from_dict`'s construction of a default session are passed through. -/
def sessionLoad (fs : FS) (genId now1 now2 : String) (id : String) :
    Except PipelineErr Session :=
  if validSessionId id then
    match lookupA fs (sessionFileName id) with
    | some d => .ok (sessionFromDict genId now1 now2 d)
    | none => .error (.notFound id)
  else .error (.invalidId id)

/-- `SessionManager.save` (`session.py` lines 125-130): refresh
`updated_at`, then validate the id via `_session_path` (raising before
any write), then overwrite the file. Returns the refreshed in-memory
session together with the new filesystem state. -/
def sessionSave (fs : FS) (now : String) (s : Session) :
    Except PipelineErr (Session × FS) :=
  let s2 := { s with updated_at := now }
  if validSessionId s2.id then
    .ok (s2, insertA fs (sessionFileName s2.id) (sessionToDict s2))
  else .error (.invalidId s2.id)

/-- `SessionManager.delete` (`session.py` lines 164-170): validate the id
first; deleting a missing file returns `false` rather than raising. -/
def sessionDelete (fs : FS) (id : String) : Except PipelineErr (FS × Bool) :=
  if validSessionId id then
    match lookupA fs (sessionFileName id) with
    | some _ => .ok (removeA fs (sessionFileName id), true)
    | none => .ok (fs, false)
  else .error (.invalidId id)

/-- C6 amended: for every id the anchored `_SESSION_ID_RE.match` rejects
— it accepts 1-32 lowercase hex characters, optionally followed by one
trailing newline — load, save and delete fail with the validation error
for every filesystem state (hence without touching the filesystem); for
an accepted id with no stored file, load fails with the distinct
not-found error. The literal ids "../../etc/passwd" and "UPPERCASE" are
rejected. -/
theorem session_id_safety (fs : FS) (id : String) (genId now1 now2 now : String)
    (s : Session) :
    (validSessionId id = false →
      sessionLoad fs genId now1 now2 id = .error (.invalidId id) ∧
      (s.id = id → sessionSave fs now s = .error (.invalidId id)) ∧
      sessionDelete fs id = .error (.invalidId id)) ∧
    (validSessionId id = true → lookupA fs (sessionFileName id) = none →
      sessionLoad fs genId now1 now2 id = .error (.notFound id)) ∧
    validSessionId "../../etc/passwd" = false ∧
    validSessionId "UPPERCASE" = false := by
  refine ⟨?_, ?_, by decide, by decide⟩
  · intro h
    refine ⟨by simp [sessionLoad, h], ?_, by simp [sessionDelete, h]⟩
    intro hs
    simp [sessionSave, hs, h]
  · intro h hlook
    simp [sessionLoad, h, hlook]

/-- C6 counterexample: the id "ab1\n" is not a string of 1-32 lowercase
hex characters, yet the anchored `re.match` accepts it (Python's `$`
matches before a trailing newline), so `load` does not raise the
validation error — it builds the path, touches the filesystem and
raises the not-found error instead. -/
theorem session_id_newline_cex :
    isLowercaseHexString "ab1\n" = false ∧
    validSessionId "ab1\n" = true ∧
    sessionLoad [] "g" "n1" "n2" "ab1\n" = .error (.notFound "ab1\n") := by
  refine ⟨by decide, by decide, ?_⟩
  rfl

/-- Witness for C6: the two malformed ids from the spec are rejected on
an empty store, and a valid unknown id gets the not-found error. -/
theorem session_id_safety_witness :
    sessionLoad [] "g" "n1" "n2" "../../etc/passwd" =
      .error (.invalidId "../../etc/passwd") ∧
    sessionSave [] "now" { id := "../../etc/passwd" } =
      .error (.invalidId "../../etc/passwd") ∧
    sessionDelete [] "UPPERCASE" = .error (.invalidId "UPPERCASE") ∧
    sessionLoad [] "g" "n1" "n2" "deadbeef0001" = .error (.notFound "deadbeef0001") :=
  ⟨((session_id_safety [] "../../etc/passwd" "g" "n1" "n2" "now"
      { id := "../../etc/passwd" }).1 (by decide)).1,
   (((session_id_safety [] "../../etc/passwd" "g" "n1" "n2" "now"
      { id := "../../etc/passwd" }).1 (by decide)).2.1 rfl),
   ((session_id_safety [] "UPPERCASE" "g" "n1" "n2" "now" {}).1 (by decide)).2.2,
   ((session_id_safety [] "deadbeef0001" "g" "n1" "n2" "now" {}).2.1 (by decide) rfl)⟩

/-! Agent framework from `slide_mcp/agents/base.py`. -/

/-- AgentResult dataclass; the `data` dict is the per-agent payload
(`none` models the default empty dict of a failure result). -/
structure AgentResult (α : Type) where
  success : Bool
  data : Option α := none
  messages : List String := []
  error : Option String := none
deriving DecidableEq, Repr

/-- ConversationContext dataclass (`agents/base.py` lines 26-66), fields
and defaults as declared. -/
structure ConversationContext where
  topic : String := ""
  purpose : String := "presentation"
  urls : List String := []
  files : List String := []
  slide_count : Nat := 10
  mood : String := ""
  audience : String := ""
  extra_instructions : String := ""
  research_data : ResearchData := []
  slides : List Slide := []
  presentation_title : String := ""
  style_name : String := ""
  style_recommendations : List (List (String × String)) := []
  custom_preset : Option Preset := none
  pptx_template_path : Option String := none
  output_dir : String := "."
  output_formats : List String := ["html"]
  output_paths : List (String × String) := []
  edit_history : List EditEntry := []
  edit_instruction : String := ""
deriving DecidableEq, Repr

/-! CuratorAgent from `slide_mcp/agents/curator.py`. The LLM call plus
JSON parsing of `_curate_slides` is an oracle producing either an
exception or a raw slide list. -/

/-- Payload of a successful curator result. -/
structure CuratorData where
  slides : List Slide
  presentation_title : String
  slide_count : Nat
deriving DecidableEq, Repr

/-- The `research.get("title_suggestion")` fallback chain of
`_determine_title` after the slides check. -/
def researchTitleSuggestion (ctx : ConversationContext) (research : ResearchData) : String :=
  match lookupA research "title_suggestion" with
  | some t => if t ≠ "" then t else ctx.topic
  | none => ctx.topic

/-- `CuratorAgent._determine_title` (`curator.py` lines 179-193):
validated first slide's truthy title, else research suggestion, else
topic. -/
def determineTitle (ctx : ConversationContext) (research : ResearchData)
    (slides : List Slide) : String :=
  match slides with
  | s0 :: _ =>
      if titleTruthy s0.title then s0.title.getD ""
      else researchTitleSuggestion ctx research
  | [] => researchTitleSuggestion ctx research

/-- `CuratorAgent.run` (`curator.py` lines 26-59): fatal on an empty
research bundle, otherwise curate via the LLM oracle, validate, and
determine the title. -/
def curatorRun (curateLLM : Except String (List Slide)) (ctx : ConversationContext) :
    AgentResult CuratorData :=
  if ctx.research_data.isEmpty then
    { success := false,
      error := some "No research data available. Run the Research Agent first." }
  else
    match curateLLM with
    | .error e => { success := false, error := some ("Curation failed: " ++ e) }
    | .ok raw =>
        let slides := validate_slides raw
        let title := determineTitle ctx ctx.research_data slides
        { success := true
          data := some ⟨slides, title, slides.length⟩
          messages := ["Created " ++ toString slides.length ++ " slides",
            "Title: " ++ title,
            "Slide types: " ++
              String.intercalate ", " (slides.map (fun s => s.type.getD "content"))] }

/-! ResearchAgent from `slide_mcp/agents/researcher.py`. The three
source-gathering helpers and the synthesis LLM call are oracles; an
oracle exception is `.error`, and an empty `.ok` string is falsy
content that is not appended. -/

/-- A gathered source dict `{"type", "source", "content"}`. -/
structure Source where
  type : String
  source : String
  content : String
deriving DecidableEq, Repr

/-- The `llm_knowledge` pseudo-source appended when zero sources yielded
content (`researcher.py` lines 78-85). -/
def llmKnowledgeSource (ctx : ConversationContext) : Source :=
  ⟨"llm_knowledge", "LLM general knowledge",
   "Topic: " ++ ctx.topic ++ ". Purpose: " ++ ctx.purpose ++ "."⟩

/-- Source gathering of `ResearchAgent.run` (`researcher.py` lines
31-76): URLs, then local files, then the web search, each appending a
source on truthy content or an error message on an exception. -/
def gatherSources (fetchUrl readFile : String → Except String String)
    (webSearch : Except String String) (ctx : ConversationContext) :
    List Source × List String :=
  let s1 := ctx.urls.foldl
    (fun (acc : List Source × List String) url =>
      match fetchUrl url with
      | .ok c =>
          if c ≠ "" then (acc.1 ++ [⟨"url", url, c.take 8000⟩], acc.2) else acc
      | .error e => (acc.1, acc.2 ++ ["URL fetch failed (" ++ url ++ "): " ++ e]))
    ([], [])
  let s2 := ctx.files.foldl
    (fun (acc : List Source × List String) fp =>
      match readFile fp with
      | .ok c =>
          if c ≠ "" then (acc.1 ++ [⟨"file", fp, c.take 8000⟩], acc.2) else acc
      | .error e => (acc.1, acc.2 ++ ["File read failed (" ++ fp ++ "): " ++ e]))
    s1
  match webSearch with
  | .ok c =>
      if c ≠ "" then (s2.1 ++ [⟨"web_search", "DuckDuckGo: " ++ ctx.topic, c⟩], s2.2)
      else s2
  | .error e => (s2.1, s2.2 ++ ["Web search failed: " ++ e])

/-- The source list handed to `_synthesize`: the gathered sources, or
the single `llm_knowledge` fallback when none yielded content
(`researcher.py` lines 78-85). -/
def researchSources (fetchUrl readFile : String → Except String String)
    (webSearch : Except String String) (ctx : ConversationContext) : List Source :=
  let g := gatherSources fetchUrl readFile webSearch ctx
  if g.1.isEmpty then [llmKnowledgeSource ctx] else g.1

/-- `ResearchAgent.run` (`researcher.py` lines 29-104); `synth` is the
`_synthesize` oracle (one LLM call over the gathered sources). -/
def researcherRun (fetchUrl readFile : String → Except String String)
    (webSearch : Except String String)
    (synth : List Source → Except String ResearchData)
    (ctx : ConversationContext) : AgentResult ResearchData :=
  let errors := (gatherSources fetchUrl readFile webSearch ctx).2
  let sources := researchSources fetchUrl readFile webSearch ctx
  match synth sources with
  | .error e =>
      { success := false
        error := some ("Research synthesis failed: " ++ e)
        messages := errors }
  | .ok bundle =>
      { success := true
        data := some bundle
        messages := ("Researched " ++ toString sources.length ++ " source(s)") :: errors }

/-- C10: the synthesis step always receives a non-empty source list; if
all three source kinds yielded nothing, that list is exactly the single
`llm_knowledge` fallback; the run fails exactly when the synthesis call
fails, and all individual source failure messages are carried into the
result's messages. -/
theorem researcher_fallback_and_failure
    (fetchUrl readFile : String → Except String String)
    (webSearch : Except String String)
    (synth : List Source → Except String ResearchData)
    (ctx : ConversationContext) :
    researchSources fetchUrl readFile webSearch ctx ≠ [] ∧
    ((gatherSources fetchUrl readFile webSearch ctx).1 = [] →
      researchSources fetchUrl readFile webSearch ctx = [llmKnowledgeSource ctx]) ∧
    ((researcherRun fetchUrl readFile webSearch synth ctx).success = false ↔
      ∃ e, synth (researchSources fetchUrl readFile webSearch ctx) = .error e) ∧
    (∀ m ∈ (gatherSources fetchUrl readFile webSearch ctx).2,
      m ∈ (researcherRun fetchUrl readFile webSearch synth ctx).messages) := by
  refine ⟨?_, ?_, ?_, ?_⟩
  · unfold researchSources
    cases hg : (gatherSources fetchUrl readFile webSearch ctx).1 with
    | nil => simp [hg]
    | cons a t => simp [hg]
  · intro hempty
    unfold researchSources
    simp [hempty]
  · unfold researcherRun
    cases hs : synth (researchSources fetchUrl readFile webSearch ctx) with
    | error e => simp [hs]
    | ok b => simp [hs]
  · intro m hm
    unfold researcherRun
    cases hs : synth (researchSources fetchUrl readFile webSearch ctx) with
    | error e =>
        simp only [hs]
        exact hm
    | ok b =>
        simp only [hs]
        exact List.mem_cons_of_mem _ hm

/-- Concrete oracles for the C10 witness: every source kind fails and so
does synthesis. -/
def c10Fetch : String → Except String String := fun u => .error ("no net: " ++ u)

/-- Concrete file oracle for the C10 witness. -/
def c10Read : String → Except String String := fun f => .error ("no file: " ++ f)

/-- Concrete search oracle for the C10 witness. -/
def c10Search : Except String String := .error "no search"

/-- Concrete synthesis oracle for the C10 witness. -/
def c10Synth : List Source → Except String ResearchData := fun _ => .error "llm down"

/-- Concrete context for the C10 witness. -/
def c10Ctx : ConversationContext := { topic := "T", urls := ["u1"], files := ["f1"] }

/-- Witness for C10 at concrete all-failing oracles. -/
theorem researcher_fallback_and_failure_witness :
    researchSources c10Fetch c10Read c10Search c10Ctx ≠ [] ∧
    ((gatherSources c10Fetch c10Read c10Search c10Ctx).1 = [] →
      researchSources c10Fetch c10Read c10Search c10Ctx = [llmKnowledgeSource c10Ctx]) ∧
    ((researcherRun c10Fetch c10Read c10Search c10Synth c10Ctx).success = false ↔
      ∃ e, c10Synth (researchSources c10Fetch c10Read c10Search c10Ctx) = .error e) ∧
    (∀ m ∈ (gatherSources c10Fetch c10Read c10Search c10Ctx).2,
      m ∈ (researcherRun c10Fetch c10Read c10Search c10Synth c10Ctx).messages) :=
  researcher_fallback_and_failure c10Fetch c10Read c10Search c10Synth c10Ctx

/-! EditorAgent from `slide_mcp/agents/editor.py`. The LLM call plus
response-shape handling of `_apply_edit` is an oracle returning either
an exception (`ValueError` included) or the raw replacement slides with
a change summary. -/

/-- Payload of a successful editor result. -/
structure EditorData where
  slides : List Slide
  change_summary : String
  edit_instruction : String
deriving DecidableEq, Repr

/-- `EditorAgent.run` (`editor.py` lines 26-60): fatal on a missing
instruction or empty slides; otherwise the LLM edit runs and the
replacement slides are re-validated. -/
def editorRun (applyEdit : Except String (List Slide × String))
    (ctx : ConversationContext) : AgentResult EditorData :=
  if ctx.edit_instruction = "" then
    { success := false, error := some "No edit instruction provided." }
  else if ctx.slides.isEmpty then
    { success := false, error := some "No slides to edit. Generate slides first." }
  else
    match applyEdit with
    | .error e => { success := false, error := some ("Edit failed: " ++ e) }
    | .ok (raw, summary) =>
        let updated := validate_slides raw
        { success := true
          data := some ⟨updated, summary, ctx.edit_instruction⟩
          messages := [summary] }

/-! Exporters from `slide_mcp/exporters/__init__.py`. The three concrete
exporters are oracles with the argument shapes of `export_html`,
`export_pptx` and `export_pdf`; `.error` is a raised exception. -/

/-- Oracle bundle for the three format exporters. -/
structure Exporters where
  html : String → List Slide → String → String → Option Preset → Except String String
  pptx : String → List Slide → String → String → Option Preset → Option String →
    Except String String
  pdf : String → String → Except String String

/-- `Path(output_dir) / fname` for the string paths the exporters get. -/
def pathJoin (d f : String) : String := if d = "." then f else d ++ "/" ++ f

/-- Python `str.lower()` as a character map. -/
def pyLower (s : String) : String := String.mk (s.data.map Char.toLower)

/-- Python `str.strip()`: drop leading and trailing whitespace. -/
def pyStrip (s : String) : String :=
  String.mk (((s.data.dropWhile Char.isWhitespace).reverse.dropWhile
    Char.isWhitespace).reverse)

/-- The safe base filename computed by `export_all` (lines 47-48):
filter to alphanumerics, space, dash, underscore; strip; spaces to
dashes (single-character `str.replace`); lowercase; first 50 chars;
fallback "presentation". -/
def safeName (title : String) : String :=
  let s1 := String.mk (title.data.filter (fun c => c.isAlphanum || c = ' ' || c = '-' || c = '_'))
  let s2 := pyLower (String.mk ((pyStrip s1).data.map (fun c => if c = ' ' then '-' else c)))
  let s3 := String.mk (s2.data.take 50)
  if s3 = "" then "presentation" else s3

/-- The formats recognized by the `EXPORTERS` registry. -/
def knownFormat (f : String) : Bool := f = "html" || f = "pptx" || f = "pdf"

/-- One iteration body of the `export_all` loop (lines 60-94): dispatch
on the normalized format; the pdf branch reuses the already-recorded
html result when truthy, else generates the html file first. -/
def exportStep (E : Exporters) (title : String) (slides : List Slide)
    (style_name output_dir : String) (custom_preset : Option Preset)
    (pptx_template : Option String) (safe : String)
    (results : List (String × String)) (f : String) : Except String String :=
  if f = "html" then
    E.html title slides style_name (pathJoin output_dir (safe ++ ".html")) custom_preset
  else if f = "pptx" then
    E.pptx title slides style_name (pathJoin output_dir (safe ++ ".pptx")) custom_preset
      pptx_template
  else
    let pdf_out := pathJoin output_dir (safe ++ ".pdf")
    let regen : Except String String :=
      let hp2 := pathJoin output_dir (safe ++ ".html")
      match E.html title slides style_name hp2 custom_preset with
      | .error e => .error e
      | .ok _ => E.pdf hp2 pdf_out
    match lookupA results "html" with
    | some hp => if hp ≠ "" then E.pdf hp pdf_out else regen
    | none => regen

/-- The `for fmt in formats` loop of `export_all`: normalize, skip
unknown formats, and record either the produced path or the
`"ERROR: ..."` marker for a raised exception. -/
def exportLoop (E : Exporters) (title : String) (slides : List Slide)
    (style_name output_dir : String) (custom_preset : Option Preset)
    (pptx_template : Option String) (safe : String) :
    List String → List (String × String) → List (String × String)
  | [], results => results
  | fmt :: rest, results =>
      let f := pyStrip (pyLower fmt)
      if knownFormat f then
        match exportStep E title slides style_name output_dir custom_preset pptx_template
            safe results f with
        | .ok p =>
            exportLoop E title slides style_name output_dir custom_preset pptx_template safe
              rest (insertA results f p)
        | .error e =>
            exportLoop E title slides style_name output_dir custom_preset pptx_template safe
              rest (insertA results f ("ERROR: " ++ e))
      else
        exportLoop E title slides style_name output_dir custom_preset pptx_template safe
          rest results

/-- `export_all` (`exporters/__init__.py` lines 28-104). A falsy
`formats` argument defaults to `["html"]`. -/
def export_all (E : Exporters) (title : String) (slides : List Slide)
    (style_name output_dir : String) (formats : Option (List String))
    (custom_preset : Option Preset) (pptx_template : Option String) :
    List (String × String) :=
  let fmts := match formats with
    | none => ["html"]
    | some l => if l.isEmpty then ["html"] else l
  exportLoop E title slides style_name output_dir custom_preset pptx_template
    (safeName title) fmts []

theorem pyNorm_html : pyStrip (pyLower "html") = "html" := by decide

theorem pyNorm_pptx : pyStrip (pyLower "pptx") = "pptx" := by decide

/-! Lookup lemmas for the dict model, used for the C8 slot and C9 merge analyses. -/

theorem lookupA_append {α : Type} (m l : List (String × α)) (k : String) :
    lookupA (m ++ l) k =
      match lookupA m k with
      | some v => some v
      | none => lookupA l k := by
  induction m with
  | nil => rfl
  | cons p rest ih =>
      obtain ⟨a, b⟩ := p
      by_cases h : a = k <;> simp [lookupA, h, ih]

theorem lookupA_eq_none_iff {α : Type} (l : List (String × α)) (k : String) :
    lookupA l k = none ↔ ∀ p ∈ l, p.1 ≠ k := by
  induction l with
  | nil => simp [lookupA]
  | cons p rest ih =>
      obtain ⟨a, b⟩ := p
      by_cases h : a = k <;> simp [lookupA, h, ih]

theorem lookupA_map_assign_ne {α : Type} (m : List (String × α)) (k' : String) (v' : α)
    (k : String) (h : k' ≠ k) :
    lookupA (m.map (fun p => if p.1 = k' then (k', v') else p)) k = lookupA m k := by
  induction m with
  | nil => rfl
  | cons p rest ih =>
      obtain ⟨a, b⟩ := p
      rw [List.map_cons]
      by_cases hp : a = k'
      · subst hp
        have hhead : (if ((a, b) : String × α).1 = a then (a, v') else (a, b)) = (a, v') := by
          simp
        rw [hhead]
        simp [lookupA, h, ih]
      · have hhead : (if ((a, b) : String × α).1 = k' then (k', v') else (a, b)) = (a, b) := by
          simp [hp]
        rw [hhead]
        by_cases hak : a = k <;> simp [lookupA, hak, ih]

theorem lookupA_map_assign_eq {α : Type} (m : List (String × α)) (k' : String) (v' : α)
    (hany : m.any (fun p => p.1 = k') = true) :
    lookupA (m.map (fun p => if p.1 = k' then (k', v') else p)) k' = some v' := by
  induction m with
  | nil => simp at hany
  | cons p rest ih =>
      obtain ⟨a, b⟩ := p
      rw [List.map_cons]
      by_cases hp : a = k'
      · subst hp
        have hhead : (if ((a, b) : String × α).1 = a then (a, v') else (a, b)) = (a, v') := by
          simp
        rw [hhead]
        simp [lookupA]
      · have hhead : (if ((a, b) : String × α).1 = k' then (k', v') else (a, b)) = (a, b) := by
          simp [hp]
        rw [hhead]
        simp only [List.any_cons, Bool.or_eq_true, decide_eq_true_eq] at hany
        rcases hany with h1 | h1
        · exact absurd h1 hp
        · simp [lookupA, hp, ih h1]

theorem lookupA_insertA {α : Type} (m : List (String × α)) (k' : String) (v' : α)
    (k : String) :
    lookupA (insertA m k' v') k = if k' = k then some v' else lookupA m k := by
  unfold insertA
  by_cases hany : m.any (fun p => p.1 = k') = true
  · rw [if_pos hany]
    by_cases hk : k' = k
    · subst hk
      rw [if_pos rfl]
      exact lookupA_map_assign_eq m k' v' hany
    · rw [if_neg hk]
      exact lookupA_map_assign_ne m k' v' k hk
  · rw [if_neg hany, lookupA_append]
    by_cases hk : k' = k
    · subst hk
      have hnone : lookupA m k' = none := by
        rw [lookupA_eq_none_iff]
        intro p hp hpk
        apply hany
        rw [List.any_eq_true]
        exact ⟨p, hp, by simp [hpk]⟩
      simp [hnone, lookupA]
    · cases hm : lookupA m k <;> simp [hm, lookupA, hk]

theorem lookupA_updateA {α : Type} (other : List (String × α)) :
    ∀ (m : List (String × α)) (k : String),
    lookupA (updateA m other) k =
      match lookupA other.reverse k with
      | some v => some v
      | none => lookupA m k := by
  induction other with
  | nil => intro m k; rfl
  | cons p rest ih =>
      intro m k
      show lookupA (updateA (insertA m p.1 p.2) rest) k = _
      rw [ih, lookupA_insertA]
      rw [List.reverse_cons, lookupA_append]
      cases h : lookupA rest.reverse k with
      | some v => simp
      | none =>
          obtain ⟨a, b⟩ := p
          by_cases hk : a = k <;> simp [lookupA, hk]

theorem lookupA_reverse_eq_none {α : Type} (l : List (String × α)) (k : String)
    (h : lookupA l k = none) : lookupA l.reverse k = none := by
  rw [lookupA_eq_none_iff] at h ⊢
  intro p hp
  exact h p (List.mem_reverse.mp hp)

theorem keys_insertA {α : Type} (m : List (String × α)) (k : String) (v : α) :
    (insertA m k v).map Prod.fst =
      if m.any (fun p => p.1 = k) then m.map Prod.fst else m.map Prod.fst ++ [k] := by
  unfold insertA
  by_cases h : m.any (fun p => p.1 = k) = true
  · rw [if_pos h, if_pos h, List.map_map]
    apply List.map_congr_left
    intro p hp
    by_cases hpk : p.1 = k <;> simp [hpk, Function.comp]
  · rw [if_neg h, if_neg h, List.map_append]
    rfl

theorem nodupKeys_insertA {α : Type} (m : List (String × α)) (k : String) (v : α)
    (h : (m.map Prod.fst).Nodup) : ((insertA m k v).map Prod.fst).Nodup := by
  rw [keys_insertA]
  by_cases hany : m.any (fun p => p.1 = k) = true
  · rw [if_pos hany]; exact h
  · rw [if_neg hany]
    have hk : k ∉ m.map Prod.fst := by
      intro hmem
      apply hany
      rw [List.any_eq_true]
      obtain ⟨p, hp, hpk⟩ := List.mem_map.mp hmem
      exact ⟨p, hp, by simp [hpk]⟩
    simp [List.nodup_append, h, hk]

theorem lookupA_reverse_of_nodup {α : Type} : ∀ l : List (String × α),
    (l.map Prod.fst).Nodup → ∀ k, lookupA l.reverse k = lookupA l k
  | [], _, _ => rfl
  | p :: rest, h, k => by
      obtain ⟨a, b⟩ := p
      rw [List.map_cons, List.nodup_cons] at h
      obtain ⟨ha, hrest⟩ := h
      rw [List.reverse_cons, lookupA_append, lookupA_reverse_of_nodup rest hrest k]
      by_cases hk : a = k
      · subst hk
        have hnone : lookupA rest a = none := by
          rw [lookupA_eq_none_iff]
          intro q hq hqa
          have hmem : q.1 ∈ rest.map Prod.fst := List.mem_map_of_mem Prod.fst hq
          rw [hqa] at hmem
          exact ha hmem
        simp [hnone, lookupA]
      · cases hm : lookupA rest k <;> simp [hm, lookupA, hk]

/-- The string one iteration of the `export_all` loop records for a
normalized format: the produced path on success, or the `"ERROR: ..."`
marker for a raised exception (lines 98-102 of
`exporters/__init__.py`). -/
def recordedValue (E : Exporters) (title : String) (slides : List Slide)
    (style_name output_dir : String) (custom_preset : Option Preset)
    (pptx_template : Option String) (safe : String)
    (results : List (String × String)) (f : String) : String :=
  match exportStep E title slides style_name output_dir custom_preset pptx_template
      safe results f with
  | .ok p => p
  | .error e => "ERROR: " ++ e

theorem exportLoop_cons (E : Exporters) (title : String) (slides : List Slide)
    (style_name output_dir : String) (custom_preset : Option Preset)
    (pptx_template : Option String) (safe fmt0 : String) (rest : List String)
    (results : List (String × String)) :
    exportLoop E title slides style_name output_dir custom_preset pptx_template safe
      (fmt0 :: rest) results =
    if knownFormat (pyStrip (pyLower fmt0)) then
      exportLoop E title slides style_name output_dir custom_preset pptx_template safe
        rest (insertA results (pyStrip (pyLower fmt0))
          (recordedValue E title slides style_name output_dir custom_preset pptx_template
            safe results (pyStrip (pyLower fmt0))))
    else
      exportLoop E title slides style_name output_dir custom_preset pptx_template safe
        rest results := by
  cases hstep : exportStep E title slides style_name output_dir custom_preset
      pptx_template safe results (pyStrip (pyLower fmt0)) with
  | ok p => simp [exportLoop, recordedValue, hstep]
  | error e => simp [exportLoop, recordedValue, hstep]

theorem mem_keys_insertA_self {α : Type} (m : List (String × α)) (k : String) (v : α) :
    k ∈ (insertA m k v).map Prod.fst := by
  rw [keys_insertA]
  by_cases hany : m.any (fun p => p.1 = k) = true
  · rw [if_pos hany]
    rw [List.any_eq_true] at hany
    obtain ⟨p, hp, hpk⟩ := hany
    rw [decide_eq_true_eq] at hpk
    exact hpk ▸ List.mem_map_of_mem Prod.fst hp
  · rw [if_neg hany]
    exact List.mem_append_right _ (List.mem_singleton.mpr rfl)

theorem lookupA_isSome_of_mem_keys {α : Type} (l : List (String × α)) (k : String)
    (h : k ∈ l.map Prod.fst) : ∃ v, lookupA l k = some v := by
  cases hv : lookupA l k with
  | some v => exact ⟨v, rfl⟩
  | none =>
      rw [lookupA_eq_none_iff] at hv
      obtain ⟨p, hp, hpk⟩ := List.mem_map.mp h
      exact absurd hpk (hv p hp)

theorem exportLoop_keys_mono (E : Exporters) (title : String) (slides : List Slide)
    (style_name output_dir : String) (custom_preset : Option Preset)
    (pptx_template : Option String) (safe : String) :
    ∀ (fmts : List String) (results : List (String × String)) (k : String),
    k ∈ results.map Prod.fst →
    k ∈ (exportLoop E title slides style_name output_dir custom_preset pptx_template
      safe fmts results).map Prod.fst
  | [], _, _, h => h
  | fmt0 :: rest, results, k, h => by
      rw [exportLoop_cons]
      by_cases hg : knownFormat (pyStrip (pyLower fmt0)) = true
      · rw [if_pos hg]
        refine exportLoop_keys_mono E title slides style_name output_dir custom_preset
          pptx_template safe rest _ k ?_
        rw [keys_insertA]
        by_cases hany : results.any (fun p => p.1 = pyStrip (pyLower fmt0)) = true
        · rw [if_pos hany]; exact h
        · rw [if_neg hany]; exact List.mem_append_left _ h
      · rw [if_neg hg]
        exact exportLoop_keys_mono E title slides style_name output_dir custom_preset
          pptx_template safe rest results k h

theorem exportLoop_key_covered (E : Exporters) (title : String) (slides : List Slide)
    (style_name output_dir : String) (custom_preset : Option Preset)
    (pptx_template : Option String) (safe : String) :
    ∀ (fmts : List String) (results : List (String × String)) (fmt0 : String),
    fmt0 ∈ fmts → knownFormat (pyStrip (pyLower fmt0)) = true →
    pyStrip (pyLower fmt0) ∈ (exportLoop E title slides style_name output_dir
      custom_preset pptx_template safe fmts results).map Prod.fst
  | [], _, fmt0, hmem, _ => absurd hmem (List.not_mem_nil fmt0)
  | fmt1 :: rest, results, fmt0, hmem, hknown0 => by
      rw [exportLoop_cons]
      by_cases hg : knownFormat (pyStrip (pyLower fmt1)) = true
      · rw [if_pos hg]
        by_cases heq : pyStrip (pyLower fmt1) = pyStrip (pyLower fmt0)
        · refine exportLoop_keys_mono E title slides style_name output_dir custom_preset
            pptx_template safe rest _ _ ?_
          rw [← heq]
          exact mem_keys_insertA_self results (pyStrip (pyLower fmt1)) _
        · rcases List.mem_cons.mp hmem with heq1 | hmem1
          · exact absurd (congrArg (fun s => pyStrip (pyLower s)) heq1).symm heq
          · exact exportLoop_key_covered E title slides style_name output_dir
              custom_preset pptx_template safe rest _ fmt0 hmem1 hknown0
      · rw [if_neg hg]
        rcases List.mem_cons.mp hmem with heq1 | hmem1
        · exact absurd (heq1 ▸ hknown0) hg
        · exact exportLoop_key_covered E title slides style_name output_dir
            custom_preset pptx_template safe rest results fmt0 hmem1 hknown0

theorem exportLoop_slot_const (E : Exporters) (title : String) (slides : List Slide)
    (style_name output_dir : String) (custom_preset : Option Preset)
    (pptx_template : Option String) (safe f v : String)
    (hknownf : knownFormat f = true)
    (hv : ∀ results, recordedValue E title slides style_name output_dir custom_preset
      pptx_template safe results f = v) :
    ∀ (fmts : List String) (results : List (String × String)),
    ((∃ fmt0 ∈ fmts, pyStrip (pyLower fmt0) = f) ∨ lookupA results f = some v) →
    lookupA (exportLoop E title slides style_name output_dir custom_preset pptx_template
      safe fmts results) f = some v
  | [], results, h => by
      rcases h with ⟨fmt0, hmem0, -⟩ | h
      · exact absurd hmem0 (List.not_mem_nil fmt0)
      · exact h
  | fmt0 :: rest, results, h => by
      rw [exportLoop_cons]
      by_cases hg : knownFormat (pyStrip (pyLower fmt0)) = true
      · rw [if_pos hg]
        by_cases heq : pyStrip (pyLower fmt0) = f
        · refine exportLoop_slot_const E title slides style_name output_dir custom_preset
            pptx_template safe f v hknownf hv rest _ (Or.inr ?_)
          rw [heq]
          simp [lookupA_insertA, hv results]
        · refine exportLoop_slot_const E title slides style_name output_dir custom_preset
            pptx_template safe f v hknownf hv rest _ ?_
          rcases h with ⟨fmt1, hmem1, hf1⟩ | hl
          · rcases List.mem_cons.mp hmem1 with heq1 | hmem1
            · exact absurd (heq1 ▸ hf1) heq
            · exact Or.inl ⟨fmt1, hmem1, hf1⟩
          · refine Or.inr ?_
            rw [lookupA_insertA, if_neg heq]
            exact hl
      · rw [if_neg hg]
        refine exportLoop_slot_const E title slides style_name output_dir custom_preset
          pptx_template safe f v hknownf hv rest results ?_
        rcases h with ⟨fmt1, hmem1, hf1⟩ | hl
        · rcases List.mem_cons.mp hmem1 with heq1 | hmem1
          · exact absurd ((heq1 ▸ hf1).symm ▸ hknownf) hg
          · exact Or.inl ⟨fmt1, hmem1, hf1⟩
        · exact Or.inr hl

theorem exportLoop_slot_err (E : Exporters) (title : String) (slides : List Slide)
    (style_name output_dir : String) (custom_preset : Option Preset)
    (pptx_template : Option String) (safe f : String)
    (hknownf : knownFormat f = true)
    (hstep : ∀ results, ∃ e, exportStep E title slides style_name output_dir
      custom_preset pptx_template safe results f = .error e) :
    ∀ (fmts : List String) (results : List (String × String)),
    ((∃ fmt0 ∈ fmts, pyStrip (pyLower fmt0) = f) ∨
      (∃ e, lookupA results f = some ("ERROR: " ++ e))) →
    ∃ e, lookupA (exportLoop E title slides style_name output_dir custom_preset
      pptx_template safe fmts results) f = some ("ERROR: " ++ e)
  | [], results, h => by
      rcases h with ⟨fmt0, hmem0, -⟩ | h
      · exact absurd hmem0 (List.not_mem_nil fmt0)
      · exact h
  | fmt0 :: rest, results, h => by
      rw [exportLoop_cons]
      by_cases hg : knownFormat (pyStrip (pyLower fmt0)) = true
      · rw [if_pos hg]
        by_cases heq : pyStrip (pyLower fmt0) = f
        · refine exportLoop_slot_err E title slides style_name output_dir custom_preset
            pptx_template safe f hknownf hstep rest _ (Or.inr ?_)
          obtain ⟨e, he⟩ := hstep results
          refine ⟨e, ?_⟩
          rw [heq]
          simp [lookupA_insertA, recordedValue, he]
        · refine exportLoop_slot_err E title slides style_name output_dir custom_preset
            pptx_template safe f hknownf hstep rest _ ?_
          rcases h with ⟨fmt1, hmem1, hf1⟩ | ⟨e, hl⟩
          · rcases List.mem_cons.mp hmem1 with heq1 | hmem1
            · exact absurd (heq1 ▸ hf1) heq
            · exact Or.inl ⟨fmt1, hmem1, hf1⟩
          · refine Or.inr ⟨e, ?_⟩
            rw [lookupA_insertA, if_neg heq]
            exact hl
      · rw [if_neg hg]
        refine exportLoop_slot_err E title slides style_name output_dir custom_preset
          pptx_template safe f hknownf hstep rest results ?_
        rcases h with ⟨fmt1, hmem1, hf1⟩ | hl
        · rcases List.mem_cons.mp hmem1 with heq1 | hmem1
          · exact absurd ((heq1 ▸ hf1).symm ▸ hknownf) hg
          · exact Or.inl ⟨fmt1, hmem1, hf1⟩
        · exact Or.inr hl

/-- C8: export failures are isolated per format. For every requested
format list and every requested format whose normalization is a known
format: (1) `export_all` always records a slot for it, so an exporter
exception is captured rather than propagated and every requested format
is attempted; (2) whichever of the three exporters that format
dispatches to, if it raises then the format's slot holds the
`"ERROR: ..."` marker (for pdf, a marker also results when the html
regeneration inside the pdf branch raises); (3) if that format's own
exporter succeeds, the slot holds the real produced path â with no
hypothesis on the other formats' exporters, so one format's raise never
stops another from succeeding. -/
theorem export_all_isolates_failures (E : Exporters) (title : String)
    (slides : List Slide) (style_name output_dir : String)
    (custom_preset : Option Preset) (pptx_template : Option String)
    (fmts : List String) (fmt : String) (hmem : fmt ∈ fmts)
    (hknown : knownFormat (pyStrip (pyLower fmt)) = true) :
    (∃ v, lookupA (export_all E title slides style_name output_dir (some fmts)
        custom_preset pptx_template) (pyStrip (pyLower fmt)) = some v) ∧
    (∀ e, pyStrip (pyLower fmt) = "html" →
      E.html title slides style_name (pathJoin output_dir (safeName title ++ ".html"))
          custom_preset = .error e →
      lookupA (export_all E title slides style_name output_dir (some fmts)
        custom_preset pptx_template) "html" = some ("ERROR: " ++ e)) ∧
    (∀ e, pyStrip (pyLower fmt) = "pptx" →
      E.pptx title slides style_name (pathJoin output_dir (safeName title ++ ".pptx"))
          custom_preset pptx_template = .error e →
      lookupA (export_all E title slides style_name output_dir (some fmts)
        custom_preset pptx_template) "pptx" = some ("ERROR: " ++ e)) ∧
    (∀ e, pyStrip (pyLower fmt) = "pdf" →
      (∀ hp, E.pdf hp (pathJoin output_dir (safeName title ++ ".pdf")) = .error e) →
      ∃ e2, lookupA (export_all E title slides style_name output_dir (some fmts)
        custom_preset pptx_template) "pdf" = some ("ERROR: " ++ e2)) ∧
    (∀ p, pyStrip (pyLower fmt) = "html" →
      E.html title slides style_name (pathJoin output_dir (safeName title ++ ".html"))
          custom_preset = .ok p →
      lookupA (export_all E title slides style_name output_dir (some fmts)
        custom_preset pptx_template) "html" = some p) ∧
    (∀ p, pyStrip (pyLower fmt) = "pptx" →
      E.pptx title slides style_name (pathJoin output_dir (safeName title ++ ".pptx"))
          custom_preset pptx_template = .ok p →
      lookupA (export_all E title slides style_name output_dir (some fmts)
        custom_preset pptx_template) "pptx" = some p) ∧
    (∀ p q, pyStrip (pyLower fmt) = "pdf" →
      (∀ hp, E.pdf hp (pathJoin output_dir (safeName title ++ ".pdf")) = .ok p) →
      E.html title slides style_name (pathJoin output_dir (safeName title ++ ".html"))
          custom_preset = .ok q →
      lookupA (export_all E title slides style_name output_dir (some fmts)
        custom_preset pptx_template) "pdf" = some p) := by
  have hR : export_all E title slides style_name output_dir (some fmts) custom_preset
      pptx_template = exportLoop E title slides style_name output_dir custom_preset
      pptx_template (safeName title) fmts [] := by
    cases fmts with
    | nil => exact absurd hmem (List.not_mem_nil fmt)
    | cons a l => rfl
  rw [hR]
  refine ⟨?_, ?_, ?_, ?_, ?_, ?_, ?_⟩
  · exact lookupA_isSome_of_mem_keys _ _
      (exportLoop_key_covered E title slides style_name output_dir custom_preset
        pptx_template (safeName title) fmts [] fmt hmem hknown)
  · intro e hf he
    refine exportLoop_slot_const E title slides style_name output_dir custom_preset
      pptx_template (safeName title) "html" ("ERROR: " ++ e) (by decide) ?_ fmts []
      (Or.inl ⟨fmt, hmem, hf⟩)
    intro results
    simp [recordedValue, exportStep, he]
  · intro e hf he
    refine exportLoop_slot_const E title slides style_name output_dir custom_preset
      pptx_template (safeName title) "pptx" ("ERROR: " ++ e) (by decide) ?_ fmts []
      (Or.inl ⟨fmt, hmem, hf⟩)
    intro results
    simp [recordedValue, exportStep, he]
  · intro e hf hpdf
    refine exportLoop_slot_err E title slides style_name output_dir custom_preset
      pptx_template (safeName title) "pdf" (by decide) ?_ fmts []
      (Or.inl ⟨fmt, hmem, hf⟩)
    intro results
    cases hl : lookupA results "html" with
    | none =>
        cases hh : E.html title slides style_name
            (pathJoin output_dir (safeName title ++ ".html")) custom_preset with
        | error eH => exact ⟨eH, by simp [exportStep, hl, hh]⟩
        | ok q => exact ⟨e, by simp [exportStep, hl, hh, hpdf]⟩
    | some hp =>
        by_cases hhp : hp = ""
        · cases hh : E.html title slides style_name
              (pathJoin output_dir (safeName title ++ ".html")) custom_preset with
          | error eH => exact ⟨eH, by simp [exportStep, hl, hhp, hh]⟩
          | ok q => exact ⟨e, by simp [exportStep, hl, hhp, hh, hpdf]⟩
        · exact ⟨e, by simp [exportStep, hl, hhp, hpdf]⟩
  · intro p hf he
    refine exportLoop_slot_const E title slides style_name output_dir custom_preset
      pptx_template (safeName title) "html" p (by decide) ?_ fmts []
      (Or.inl ⟨fmt, hmem, hf⟩)
    intro results
    simp [recordedValue, exportStep, he]
  · intro p hf he
    refine exportLoop_slot_const E title slides style_name output_dir custom_preset
      pptx_template (safeName title) "pptx" p (by decide) ?_ fmts []
      (Or.inl ⟨fmt, hmem, hf⟩)
    intro results
    simp [recordedValue, exportStep, he]
  · intro p q hf hpdf hh
    refine exportLoop_slot_const E title slides style_name output_dir custom_preset
      pptx_template (safeName title) "pdf" p (by decide) ?_ fmts []
      (Or.inl ⟨fmt, hmem, hf⟩)
    intro results
    cases hl : lookupA results "html" with
    | none => simp [recordedValue, exportStep, hl, hh, hpdf]
    | some hp =>
        by_cases hhp : hp = ""
        · simp [recordedValue, exportStep, hl, hhp, hh, hpdf]
        · simp [recordedValue, exportStep, hl, hhp, hpdf]

/-- Concrete exporter oracles for the C8 witness: html and pdf echo
their output path, pptx raises. -/
def c8Exporters : Exporters :=
  { html := fun _ _ _ path _ => .ok path
    pptx := fun _ _ _ _ _ _ => .error "pptx renderer crashed"
    pdf := fun _ path => .ok path }

/-- Witness for C8: the concrete exporters with the three-format request
list, taking pptx as the requested format under scrutiny. -/
theorem export_all_isolates_failures_witness :
    (∃ v, lookupA (export_all c8Exporters "My Deck" [] "bold_signal" "."
        (some ["html", "pptx", "pdf"]) none none) (pyStrip (pyLower "pptx")) = some v) ∧
    (∀ e, pyStrip (pyLower "pptx") = "html" →
      c8Exporters.html "My Deck" [] "bold_signal"
          (pathJoin "." (safeName "My Deck" ++ ".html")) none = .error e →
      lookupA (export_all c8Exporters "My Deck" [] "bold_signal" "."
        (some ["html", "pptx", "pdf"]) none none) "html" = some ("ERROR: " ++ e)) ∧
    (∀ e, pyStrip (pyLower "pptx") = "pptx" →
      c8Exporters.pptx "My Deck" [] "bold_signal"
          (pathJoin "." (safeName "My Deck" ++ ".pptx")) none none = .error e →
      lookupA (export_all c8Exporters "My Deck" [] "bold_signal" "."
        (some ["html", "pptx", "pdf"]) none none) "pptx" = some ("ERROR: " ++ e)) ∧
    (∀ e, pyStrip (pyLower "pptx") = "pdf" →
      (∀ hp, c8Exporters.pdf hp (pathJoin "." (safeName "My Deck" ++ ".pdf")) =
        .error e) →
      ∃ e2, lookupA (export_all c8Exporters "My Deck" [] "bold_signal" "."
        (some ["html", "pptx", "pdf"]) none none) "pdf" = some ("ERROR: " ++ e2)) ∧
    (∀ p, pyStrip (pyLower "pptx") = "html" →
      c8Exporters.html "My Deck" [] "bold_signal"
          (pathJoin "." (safeName "My Deck" ++ ".html")) none = .ok p →
      lookupA (export_all c8Exporters "My Deck" [] "bold_signal" "."
        (some ["html", "pptx", "pdf"]) none none) "html" = some p) ∧
    (∀ p, pyStrip (pyLower "pptx") = "pptx" →
      c8Exporters.pptx "My Deck" [] "bold_signal"
          (pathJoin "." (safeName "My Deck" ++ ".pptx")) none none = .ok p →
      lookupA (export_all c8Exporters "My Deck" [] "bold_signal" "."
        (some ["html", "pptx", "pdf"]) none none) "pptx" = some p) ∧
    (∀ p q, pyStrip (pyLower "pptx") = "pdf" →
      (∀ hp, c8Exporters.pdf hp (pathJoin "." (safeName "My Deck" ++ ".pdf")) =
        .ok p) →
      c8Exporters.html "My Deck" [] "bold_signal"
          (pathJoin "." (safeName "My Deck" ++ ".html")) none = .ok q →
      lookupA (export_all c8Exporters "My Deck" [] "bold_signal" "."
        (some ["html", "pptx", "pdf"]) none none) "pdf" = some p) :=
  export_all_isolates_failures c8Exporters "My Deck" [] "bold_signal" "." none none
    ["html", "pptx", "pdf"] "pptx" (by decide) (by decide)

/-! Orchestrator from `slide_mcp/agents/orchestrator.py`. -/

/-- Python `str(error)` of an optional error, `"None"` when absent, as
interpolated into the `RuntimeError` messages. -/
def pyErrStr : Option String → String
  | some e => e
  | none => "None"

/-- The `.rsplit("/", 1)[0]` of the output-dir recovery in
`edit_presentation` (line 166): everything before the last slash, or
the whole string if it has none. -/
def rsplitHead (s : String) : String :=
  let parts := s.splitOn "/"
  if parts.length ≤ 1 then s else String.intercalate "/" parts.dropLast

/-- Output directory recovered from a session's saved html path
(`orchestrator.py` line 166). -/
def editOutputDir (session : Session) : String :=
  if session.output_paths.isEmpty then "."
  else rsplitHead ((lookupA session.output_paths "html").getD ".")

/-- Context rehydrated from a loaded session for an edit call
(`orchestrator.py` lines 159-172), including the instruction. -/
def editContext (session : Session) (instruction : String) : ConversationContext :=
  { topic := session.topic
    purpose := session.purpose
    slides := session.slides
    presentation_title := session.presentation_title
    style_name := session.style_name
    custom_preset := session.custom_preset
    output_dir := editOutputDir session
    output_formats := session.output_formats
    research_data := session.research_data
    edit_instruction := instruction }

/-- `Orchestrator._export` (lines 259-273): `export_all` over the
context's fields, with the falsy-title fallback to the topic. -/
def orchExport (E : Exporters) (ctx : ConversationContext) : List (String × String) :=
  export_all E (if ctx.presentation_title ≠ "" then ctx.presentation_title else ctx.topic)
    ctx.slides ctx.style_name ctx.output_dir (some ctx.output_formats) ctx.custom_preset
    ctx.pptx_template_path

/-- `Orchestrator.edit_presentation` (lines 146-189): load, rehydrate,
run the Editor (oracle `applyEdit` for its LLM step), raise on failure,
else update slides, append history, re-export and save. The pair's
second component is the filesystem after the call. -/
def editPresentation (applyEdit : Except String (List Slide × String)) (E : Exporters)
    (fs : FS) (genId now1 now2 : String) (session_id instruction : String)
    (nowEdit nowSave : String) : Except PipelineErr Session × FS :=
  match sessionLoad fs genId now1 now2 session_id with
  | .error er => (.error er, fs)
  | .ok session =>
      let context := editContext session instruction
      let result := editorRun applyEdit context
      if result.success then
        let data := result.data.getD ⟨[], "", ""⟩
        let session1 := { session with slides := data.slides }
        let session2 := addEdit nowEdit session1 instruction data.change_summary
        let context2 := { context with slides := session2.slides }
        let output_paths := orchExport E context2
        let session3 := { session2 with output_paths := output_paths }
        match sessionSave fs nowSave session3 with
        | .error er => (.error er, fs)
        | .ok (s4, fs2) => (.ok s4, fs2)
      else
        (.error (.runtime ("Edit failed: " ++ pyErrStr result.error)), fs)

/-- C7: `edit_presentation` is atomic with respect to the persisted
session — when the Editor returns failure the call raises and the
filesystem (hence the previously saved session file) is exactly as
before the call; a save happens only after a successful Editor result. -/
theorem edit_presentation_atomic (applyEdit : Except String (List Slide × String))
    (E : Exporters) (fs : FS) (genId now1 now2 session_id instruction nowEdit nowSave : String)
    (s : Session)
    (hload : sessionLoad fs genId now1 now2 session_id = .ok s)
    (hfail : (editorRun applyEdit (editContext s instruction)).success = false) :
    editPresentation applyEdit E fs genId now1 now2 session_id instruction nowEdit nowSave =
      (.error (.runtime ("Edit failed: " ++
        pyErrStr (editorRun applyEdit (editContext s instruction)).error)), fs) := by
  unfold editPresentation
  rw [hload]
  simp only [hfail, Bool.false_eq_true, if_false]

/-- Concrete session stored on disk for the C7 witness: it has no
slides, so the Editor fails. -/
def c7Session : Session :=
  { id := "ab", topic := "t", created_at := "c", updated_at := "u" }

/-- Concrete filesystem for the C7 witness. -/
def c7Fs : FS := [(sessionFileName "ab", sessionToDict c7Session)]

/-- Witness for C7: with the stored slide-less session the Editor fails
and the call returns the error, leaving the filesystem untouched. -/
theorem edit_presentation_atomic_witness :
    editPresentation (.ok ([], "x")) c8Exporters c7Fs "g" "n1" "n2" "ab" "do it" "t1" "t2" =
      (.error (.runtime "Edit failed: No slides to edit. Generate slides first."), c7Fs) :=
  edit_presentation_atomic (.ok ([], "x")) c8Exporters c7Fs "g" "n1" "n2" "ab" "do it"
    "t1" "t2" c7Session rfl rfl

theorem nodupKeys_exportLoop (E : Exporters) (title : String) (slides : List Slide)
    (style_name output_dir : String) (custom_preset : Option Preset)
    (pptx_template : Option String) (safe : String) :
    ∀ (fmts : List String) (results : List (String × String)),
    (results.map Prod.fst).Nodup →
    ((exportLoop E title slides style_name output_dir custom_preset pptx_template safe
      fmts results).map Prod.fst).Nodup
  | [], _, h => h
  | fmt :: rest, results, h => by
      rw [exportLoop]
      by_cases hf : knownFormat (pyStrip (pyLower fmt)) = true
      · simp only [hf, if_true]
        cases hstep : exportStep E title slides style_name output_dir custom_preset
            pptx_template safe results (pyStrip (pyLower fmt)) with
        | ok p =>
            exact nodupKeys_exportLoop E title slides style_name output_dir custom_preset
              pptx_template safe rest _ (nodupKeys_insertA _ _ _ h)
        | error e =>
            exact nodupKeys_exportLoop E title slides style_name output_dir custom_preset
              pptx_template safe rest _ (nodupKeys_insertA _ _ _ h)
      · simp only [hf, if_false]
        exact nodupKeys_exportLoop E title slides style_name output_dir custom_preset
          pptx_template safe rest results h

theorem nodupKeys_export_all (E : Exporters) (title : String) (slides : List Slide)
    (style_name output_dir : String) (formats : Option (List String))
    (custom_preset : Option Preset) (pptx_template : Option String) :
    ((export_all E title slides style_name output_dir formats custom_preset
      pptx_template).map Prod.fst).Nodup := by
  unfold export_all
  exact nodupKeys_exportLoop E title slides style_name output_dir custom_preset
    pptx_template (safeName title) _ [] (by simp)

/-- Deduplication keeping first occurrences, standing in for Python's
`list(set(...))` whose iteration order is unspecified; the theorems use
it only through membership. -/
def pySetList : List String → List String
  | [] => []
  | x :: rest => x :: (pySetList rest).filter (fun y => y ≠ x)

theorem mem_pySetList (l : List String) (y : String) : y ∈ pySetList l ↔ y ∈ l := by
  induction l with
  | nil => simp [pySetList]
  | cons x rest ih =>
      by_cases h : y = x <;> simp [pySetList, h, List.mem_filter, ih]

/-- Context built by `Orchestrator.export_formats` (lines 243-251). -/
def exportContext (session : Session) (formats : List String) (output_dir : String) :
    ConversationContext :=
  { topic := session.topic
    slides := session.slides
    presentation_title := session.presentation_title
    style_name := session.style_name
    custom_preset := session.custom_preset
    output_dir := output_dir
    output_formats := formats }

/-- `Orchestrator.export_formats` (lines 234-257): load, re-export the
existing slides to the requested formats, merge the produced paths into
the session's map (`dict.update`), replace the recorded format list by
`list(set(old + formats))`, save, and return the new paths. -/
def exportFormats (E : Exporters) (fs : FS) (genId now1 now2 : String)
    (session_id : String) (formats : List String) (output_dir : String)
    (nowSave : String) : Except PipelineErr (List (String × String)) × FS :=
  match sessionLoad fs genId now1 now2 session_id with
  | .error er => (.error er, fs)
  | .ok session =>
      let output_paths := orchExport E (exportContext session formats output_dir)
      let session1 := { session with
        output_paths := updateA session.output_paths output_paths
        output_formats := pySetList (session.output_formats ++ formats) }
      match sessionSave fs nowSave session1 with
      | .error er => (.error er, fs)
      | .ok (_, fs2) => (.ok output_paths, fs2)

theorem sessionSave_ok (fs : FS) (now : String) (s : Session)
    (h : validSessionId s.id = true) :
    sessionSave fs now s = .ok ({ s with updated_at := now },
      insertA fs (sessionFileName s.id) (sessionToDict { s with updated_at := now })) := by
  unfold sessionSave
  simp [h]

theorem nodupKeys_orchExport (E : Exporters) (ctx : ConversationContext) :
    ((orchExport E ctx).map Prod.fst).Nodup := by
  unfold orchExport
  exact nodupKeys_export_all E _ ctx.slides ctx.style_name ctx.output_dir
    (some ctx.output_formats) ctx.custom_preset ctx.pptx_template_path

/-- The session as persisted by `export_formats`: merged output paths,
widened format list, refreshed `updated_at`; everything else as loaded. -/
def exportFormatsSaved (E : Exporters) (s : Session) (formats : List String)
    (output_dir nowSave : String) : Session :=
  { s with
    output_paths := updateA s.output_paths (orchExport E (exportContext s formats output_dir))
    output_formats := pySetList (s.output_formats ++ formats)
    updated_at := nowSave }

/-- C9: `export_formats` re-exports the loaded slides without touching
the session's research data, slides, title or style; the produced paths
are merged into the session's output map (new keys win, keys for other
formats are kept), and the recorded format list becomes the set union
of the old and requested formats. -/
theorem export_formats_frame_and_merge (E : Exporters) (fs : FS)
    (genId now1 now2 session_id : String) (formats : List String)
    (output_dir nowSave : String) (s : Session)
    (hload : sessionLoad fs genId now1 now2 session_id = .ok s)
    (hid : validSessionId s.id = true) :
    exportFormats E fs genId now1 now2 session_id formats output_dir nowSave =
      (.ok (orchExport E (exportContext s formats output_dir)),
       insertA fs (sessionFileName s.id)
         (sessionToDict (exportFormatsSaved E s formats output_dir nowSave))) ∧
    (exportFormatsSaved E s formats output_dir nowSave).research_data = s.research_data ∧
    (exportFormatsSaved E s formats output_dir nowSave).slides = s.slides ∧
    (exportFormatsSaved E s formats output_dir nowSave).presentation_title =
      s.presentation_title ∧
    (exportFormatsSaved E s formats output_dir nowSave).style_name = s.style_name ∧
    (exportFormatsSaved E s formats output_dir nowSave).custom_preset = s.custom_preset ∧
    (∀ k v, lookupA (orchExport E (exportContext s formats output_dir)) k = some v →
      lookupA (exportFormatsSaved E s formats output_dir nowSave).output_paths k = some v) ∧
    (∀ k, lookupA (orchExport E (exportContext s formats output_dir)) k = none →
      lookupA (exportFormatsSaved E s formats output_dir nowSave).output_paths k =
        lookupA s.output_paths k) ∧
    (∀ f, f ∈ (exportFormatsSaved E s formats output_dir nowSave).output_formats ↔
      f ∈ s.output_formats ∨ f ∈ formats) := by
  refine ⟨?_, rfl, rfl, rfl, rfl, rfl, ?_, ?_, ?_⟩
  · unfold exportFormats
    rw [hload]
    show (match sessionSave fs nowSave { s with
        output_paths := updateA s.output_paths (orchExport E (exportContext s formats output_dir))
        output_formats := pySetList (s.output_formats ++ formats) } with
      | Except.error er => (Except.error er, fs)
      | Except.ok (_, fs2) =>
          (Except.ok (orchExport E (exportContext s formats output_dir)), fs2)) = _
    rw [sessionSave_ok fs nowSave { s with
      output_paths := updateA s.output_paths (orchExport E (exportContext s formats output_dir))
      output_formats := pySetList (s.output_formats ++ formats) } hid]
    rfl
  · intro k v hk
    show lookupA (updateA s.output_paths
      (orchExport E (exportContext s formats output_dir))) k = some v
    rw [lookupA_updateA,
      lookupA_reverse_of_nodup _ (nodupKeys_orchExport E (exportContext s formats output_dir)) k,
      hk]
  · intro k hk
    show lookupA (updateA s.output_paths
      (orchExport E (exportContext s formats output_dir))) k = lookupA s.output_paths k
    rw [lookupA_updateA, lookupA_reverse_eq_none _ _ hk]
  · intro f
    show f ∈ pySetList (s.output_formats ++ formats) ↔ _
    rw [mem_pySetList, List.mem_append]

/-- Witness for C9 at the concrete store of `c7Fs`. -/
theorem export_formats_frame_and_merge_witness :
    exportFormats c8Exporters c7Fs "g" "n1" "n2" "ab" ["pptx"] "out" "t9" =
      (.ok (orchExport c8Exporters (exportContext c7Session ["pptx"] "out")),
       insertA c7Fs (sessionFileName c7Session.id)
         (sessionToDict (exportFormatsSaved c8Exporters c7Session ["pptx"] "out" "t9"))) ∧
    (exportFormatsSaved c8Exporters c7Session ["pptx"] "out" "t9").research_data =
      c7Session.research_data ∧
    (exportFormatsSaved c8Exporters c7Session ["pptx"] "out" "t9").slides =
      c7Session.slides ∧
    (exportFormatsSaved c8Exporters c7Session ["pptx"] "out" "t9").presentation_title =
      c7Session.presentation_title ∧
    (exportFormatsSaved c8Exporters c7Session ["pptx"] "out" "t9").style_name =
      c7Session.style_name ∧
    (exportFormatsSaved c8Exporters c7Session ["pptx"] "out" "t9").custom_preset =
      c7Session.custom_preset ∧
    (∀ k v, lookupA (orchExport c8Exporters (exportContext c7Session ["pptx"] "out")) k =
        some v →
      lookupA (exportFormatsSaved c8Exporters c7Session ["pptx"] "out" "t9").output_paths k =
        some v) ∧
    (∀ k, lookupA (orchExport c8Exporters (exportContext c7Session ["pptx"] "out")) k =
        none →
      lookupA (exportFormatsSaved c8Exporters c7Session ["pptx"] "out" "t9").output_paths k =
        lookupA c7Session.output_paths k) ∧
    (∀ f, f ∈ (exportFormatsSaved c8Exporters c7Session ["pptx"] "out" "t9").output_formats ↔
      f ∈ c7Session.output_formats ∨ f ∈ ["pptx"]) :=
  export_formats_frame_and_merge c8Exporters c7Fs "g" "n1" "n2" "ab" ["pptx"] "out" "t9"
    c7Session rfl rfl

/-! `Orchestrator.create_presentation` (lines 46-144). The Researcher and
StyleRecommender phases enter as whole-result oracles, the Curator's LLM
step as the `curateLLM` oracle consumed by the faithful `curatorRun`. -/

/-- Payload dict of a StyleRecommender result, with the keys the
orchestrator reads. -/
structure StyleData where
  recommended_style : Option String := none
  recommendations : List (List (String × String)) := []
  custom_preset : Option Preset := none
deriving DecidableEq, Repr

/-- Truthiness of `style_result.data.get("custom_preset")`. -/
def presetTruthy : Option Preset → Bool
  | some p => !p.isEmpty
  | none => false

/-- The `output_formats or ["html"]` default (line 66). -/
def orDefaultFormats : Option (List String) → List String
  | none => ["html"]
  | some l => if l.isEmpty then ["html"] else l

/-- The fresh session built by `session_manager.create` from the kwargs
of `create_presentation` (lines 85-94), after `__post_init__`. -/
def initialSession (freshId nowC1 nowC2 : String) (topic purpose : String)
    (urls files : List String) (mood audience : String) (slide_count : Nat)
    (output_formats : List String) : Session :=
  postInit freshId nowC1 nowC2
    { topic := topic, purpose := purpose, urls := urls, files := files,
      mood := mood, audience := audience, slide_count := slide_count,
      output_formats := output_formats }

/-- `Orchestrator.create_presentation` (lines 46-144): build the context,
create and save a session, then run research (non-fatal), curation
(fatal), style selection (non-fatal) and export, and save again. The
second component is the filesystem after the call. -/
def createPresentation (researcherResult : AgentResult ResearchData)
    (curateLLM : Except String (List Slide)) (styleResult : AgentResult StyleData)
    (E : Exporters) (fs : FS) (freshId nowC1 nowC2 nowSave1 nowSave2 : String)
    (topic : String) (urls files : List String) (slide_count : Nat)
    (purpose mood audience style_name : String) (pptx_template : Option String)
    (output_dir : String) (output_formats : Option (List String))
    (extra_instructions : String) : Except PipelineErr Session × FS :=
  let formats := orDefaultFormats output_formats
  let context : ConversationContext :=
    { topic := topic, purpose := purpose, urls := urls, files := files,
      slide_count := slide_count, mood := mood, audience := audience,
      style_name := style_name, pptx_template_path := pptx_template,
      output_dir := output_dir, output_formats := formats,
      extra_instructions := extra_instructions }
  match sessionSave fs nowSave1
      (initialSession freshId nowC1 nowC2 topic purpose urls files mood audience
        slide_count formats) with
  | .error er => (.error er, fs)
  | .ok (session0, fs1) =>
      let c1 := if researcherResult.success then
          { context with research_data := researcherResult.data.getD [] }
        else { context with research_data := [] }
      let session1 := if researcherResult.success then
          { session0 with research_data := researcherResult.data.getD [] }
        else session0
      let curatorResult := curatorRun curateLLM c1
      if curatorResult.success then
        let cdata := curatorResult.data.getD ⟨[], "", 0⟩
        let c2 := { c1 with
          slides := cdata.slides
          presentation_title := cdata.presentation_title }
        let session2 := { session1 with
          slides := cdata.slides
          presentation_title := cdata.presentation_title }
        let styled : ConversationContext × Session :=
          if styleResult.success then
            let sdata := styleResult.data.getD {}
            let c3a := { c2 with
              style_name := sdata.recommended_style.getD "bold_signal"
              style_recommendations := sdata.recommendations }
            if presetTruthy sdata.custom_preset then
              ({ c3a with custom_preset := sdata.custom_preset },
               { session2 with custom_preset := sdata.custom_preset })
            else (c3a, session2)
          else
            ({ c2 with style_name := if c2.style_name ≠ "" then c2.style_name
                else "bold_signal" },
             session2)
        let c3 := styled.1
        let session3 := { styled.2 with style_name := c3.style_name }
        let output_paths := orchExport E c3
        let session4 := { session3 with output_paths := output_paths }
        match sessionSave fs1 nowSave2 session4 with
        | .error er => (.error er, fs1)
        | .ok (s5, fs2) => (.ok s5, fs2)
      else
        (.error (.runtime ("Curation failed: " ++ pyErrStr curatorResult.error)), fs1)

/-- C1 counterexample: with a failing Researcher, a Curator LLM oracle
that would return perfectly good slides, a succeeding StyleRecommender
and working exporters, `create_presentation` does not proceed to produce
slides — it aborts with the Curator's empty-research error, because
`CuratorAgent.run` treats an empty research bundle as fatal and the
orchestrator raises on curation failure. -/
theorem create_presentation_research_failure_cex :
    (createPresentation { success := false, error := some "boom" }
      (.ok [{ type := some "title", title := some "T" },
            { type := some "closing", title := some "C" }])
      { success := true, data := some {} } c8Exporters [] "ab12" "t0a" "t0b" "t1" "t2"
      "Topic" [] [] 5 "presentation" "" "" "" none "." none "").1 =
      .error (.runtime
        "Curation failed: No research data available. Run the Research Agent first.") :=
  rfl

/-- C1 amended: when the Researcher phase fails, the orchestrator logs,
sets the context's research bundle to the empty mapping and continues to
the Curation phase; but the Curator fatally rejects the empty bundle, so
for every curator LLM oracle, style result and exporter the call aborts
with the curation error, leaving only the initially created session on
disk. -/
theorem create_presentation_research_failure (researcherResult : AgentResult ResearchData)
    (curateLLM : Except String (List Slide)) (styleResult : AgentResult StyleData)
    (E : Exporters) (fs : FS) (freshId nowC1 nowC2 nowSave1 nowSave2 : String)
    (topic : String) (urls files : List String) (slide_count : Nat)
    (purpose mood audience style_name : String) (pptx_template : Option String)
    (output_dir : String) (output_formats : Option (List String))
    (extra_instructions : String)
    (hfresh : validSessionId freshId = true)
    (hfail : researcherResult.success = false) :
    createPresentation researcherResult curateLLM styleResult E fs freshId nowC1 nowC2
      nowSave1 nowSave2 topic urls files slide_count purpose mood audience style_name
      pptx_template output_dir output_formats extra_instructions =
      (.error (.runtime
        "Curation failed: No research data available. Run the Research Agent first."),
       insertA fs (sessionFileName freshId)
         (sessionToDict { initialSession freshId nowC1 nowC2 topic purpose urls files mood
           audience slide_count (orDefaultFormats output_formats) with
           updated_at := nowSave1 })) := by
  unfold createPresentation
  simp only [hfail, Bool.false_eq_true, if_false]
  rw [sessionSave_ok fs nowSave1
    (initialSession freshId nowC1 nowC2 topic purpose urls files mood audience
      slide_count (orDefaultFormats output_formats)) hfresh]
  rfl

/-- Witness for the amended C1 at concrete inputs: a failing Researcher
and an otherwise fully working pipeline. -/
theorem create_presentation_research_failure_witness :
    createPresentation { success := false, error := some "boom" }
      (.ok [{ type := some "title", title := some "T" },
            { type := some "closing", title := some "C" }])
      { success := true, data := some {} } c8Exporters [] "ab12" "t0a" "t0b" "t1" "t2"
      "Topic" [] [] 5 "presentation" "" "" "" none "." none "" =
      (.error (.runtime
        "Curation failed: No research data available. Run the Research Agent first."),
       insertA [] (sessionFileName "ab12")
         (sessionToDict { initialSession "ab12" "t0a" "t0b" "Topic" "presentation" [] []
           "" "" 5 (orDefaultFormats none) with updated_at := "t1" })) :=
  create_presentation_research_failure { success := false, error := some "boom" }
    (.ok [{ type := some "title", title := some "T" },
          { type := some "closing", title := some "C" }])
    { success := true, data := some {} } c8Exporters [] "ab12" "t0a" "t0b" "t1" "t2"
    "Topic" [] [] 5 "presentation" "" "" "" none "." none "" (by decide) rfl
